import Mathlib

/-!
Verification of the book-tracker backend.

The embedding models:
* the Book record and the persisted table state (`Store`);
* the raw-driver store layer (sqlite3 version: `getAllBooks`, `createBook`,
  `toggleBookStatus`, `deleteBook`, `updateBookRating`);
* the ORM-backed store layer (Sequelize version: same five operations, with
  the model-level rating validator `min: 0, max: 5` and the extra
  `title.trim()` / `author.trim()` in `createBook`);
* the relevant JavaScript semantics used by the Express handlers:
  truthiness (`!title`), `String(v)`, `String.prototype.trim()`, and
  `Number(v)` (string-to-number conversion for finite decimal literals with
  optional sign, fraction and exponent; hex and Infinity forms do not occur
  in the API's inputs and are mapped to NaN);
* the Express route handlers from the server file.

Timestamps are abstracted as natural numbers (`now` is passed explicitly to
`create`). A JavaScript number is modelled as an exact fraction `JsNum`
(numerator and denominator, the denominator a positive power of ten by
construction), which is exact for every value the claims exercise; `none`
plays the role of NaN in the result of a number conversion.
-/

/-- A finite JavaScript number as an exact, unreduced fraction. Every
number built by the model has a positive power-of-ten denominator. -/
structure JsNum where
  num : Int
  den : Nat
deriving DecidableEq

/-- Embed an integer id or constant as a JavaScript number. -/
def JsNum.ofNat (n : Nat) : JsNum := ⟨(n : Int), 1⟩

instance : OfNat JsNum n := ⟨JsNum.ofNat n⟩

/-- Value equality of two JavaScript numbers (cross multiplication). -/
def jnEq (a b : JsNum) : Bool :=
  decide (a.num * (b.den : Int) = b.num * (a.den : Int))

/-- Value order of two JavaScript numbers (cross multiplication; the
denominators the model builds are positive). -/
def jnLt (a b : JsNum) : Bool :=
  decide (a.num * (b.den : Int) < b.num * (a.den : Int))

/-- Reading status of a book: the TypeScript union "READ" | "UNREAD". -/
inductive BookStatus where
  | READ
  | UNREAD
deriving DecidableEq

/-- The Book entity: row of the books table / the Book interface. -/
structure Book where
  id : Nat
  title : String
  author : String
  status : BookStatus
  createdAt : Nat
  rating : JsNum
deriving DecidableEq

/-- Persisted table state: the rows plus the auto-increment counter. -/
structure Store where
  rows : List Book
  nextId : Nat
deriving DecidableEq

/-- The empty database (fresh installation). -/
def Store.empty : Store := { rows := [], nextId := 1 }

/-- Well-formedness maintained by the relational engine: the PRIMARY KEY
constraint (ids are pairwise distinct) and AUTOINCREMENT (every existing id
is below the next id to be assigned). -/
def Store.WF (s : Store) : Prop :=
  (s.rows.map Book.id).Nodup ∧ ∀ c ∈ s.rows, c.id < s.nextId

instance (s : Store) : Decidable s.WF := by
  unfold Store.WF; infer_instance

/-- Row matching for `WHERE id = ?`: the queried id arrives as a JavaScript
number and is compared numerically with the integer id column, exactly as
SQLite compares an INTEGER column with a REAL bind value. -/
def idMatches (idq : JsNum) (b : Book) : Bool := jnEq (JsNum.ofNat b.id) idq

/-- Sort key of the list query: `ORDER BY createdAt DESC` (newest first,
non-strict on ties). -/
def createdDesc (a b : Book) : Prop := b.createdAt ≤ a.createdAt

instance : DecidableRel createdDesc := fun a b => Nat.decLe b.createdAt a.createdAt

instance : IsTotal Book createdDesc := ⟨fun a b => Nat.le_total b.createdAt a.createdAt⟩

instance : IsTrans Book createdDesc := ⟨fun _ _ _ hab hbc => le_trans hbc hab⟩

/-- The SQL CASE expression of the raw driver's toggle:
CASE WHEN status = 'READ' THEN 'UNREAD' ELSE 'READ' END. -/
def statusFlip : BookStatus → BookStatus
  | .READ => .UNREAD
  | .UNREAD => .READ

/-! ## Raw-driver store layer (sqlite3 version of db.ts) -/

/-- `getAllBooks`: SELECT * FROM books ORDER BY createdAt DESC. -/
def getAllBooks (s : Store) : List Book :=
  List.insertionSort createdDesc s.rows

/-- `createBook`: INSERT INTO books (title, author, status, rating)
VALUES (?, ?, 'UNREAD', 0) — id from AUTOINCREMENT, createdAt from
CURRENT_TIMESTAMP — then SELECT the new row back by lastID. -/
def createBook (s : Store) (title author : String) (now : Nat) : Book × Store :=
  let b : Book :=
    { id := s.nextId, title := title, author := author,
      status := .UNREAD, createdAt := now, rating := 0 }
  (b, { rows := s.rows ++ [b], nextId := s.nextId + 1 })

/-- Effect of the toggle UPDATE on one row: flip status when the WHERE
clause matches, leave the row alone otherwise. -/
def toggleRow (idq : JsNum) (b : Book) : Book :=
  if idMatches idq b then { b with status := statusFlip b.status } else b

/-- `toggleBookStatus`: UPDATE flipping status WHERE id = ?; if
`this.changes = 0` resolve null, else SELECT the row back. -/
def toggleBookStatus (s : Store) (idq : JsNum) : Option Book × Store :=
  if s.rows.any (idMatches idq) then
    let rows := s.rows.map (toggleRow idq)
    (rows.find? (idMatches idq), { s with rows := rows })
  else
    (none, s)

/-- `deleteBook`: DELETE FROM books WHERE id = ?; resolve `this.changes > 0`. -/
def deleteBook (s : Store) (idq : JsNum) : Bool × Store :=
  (decide (0 < s.rows.countP (idMatches idq)),
   { s with rows := s.rows.filter fun b => ! idMatches idq b })

/-- Effect of the rating UPDATE on one row: set the rating when the WHERE
clause matches, leave the row alone otherwise. -/
def setRatingRow (idq : JsNum) (rating : JsNum) (b : Book) : Book :=
  if idMatches idq b then { b with rating := rating } else b

/-- `updateBookRating`: UPDATE books SET rating = ? WHERE id = ?; if
`this.changes = 0` resolve null, else SELECT the row back. The store sets
the rating verbatim, with no range check of its own. -/
def updateBookRating (s : Store) (idq : JsNum) (rating : JsNum) : Option Book × Store :=
  if s.rows.any (idMatches idq) then
    let rows := s.rows.map (setRatingRow idq rating)
    (rows.find? (idMatches idq), { s with rows := rows })
  else
    (none, s)

/-! ## JavaScript string semantics -/

/-- Whitespace for JavaScript trimming and number conversion (the ASCII
subset; exotic Unicode spaces do not occur in the API's inputs). -/
def isWsChar (c : Char) : Bool :=
  c = ' ' || c = '\t' || c = '\n' || c = '\r' || c = '\x0b' || c = '\x0c'

/-- JavaScript `String.prototype.trim()`: strip leading and trailing
whitespace. -/
def strTrim (s : String) : String :=
  ⟨(((s.data.dropWhile isWsChar).reverse.dropWhile isWsChar).reverse)⟩

/-! ## ORM-backed store layer (Sequelize version of db.ts)

The Book model declares rating with `validate: { min: 0, max: 5 }`; a
single-field `instance.update` whose new rating violates those bounds
rejects with a ValidationError, modelled by `Except.error`. -/

/-- Failure of a Sequelize model validator. -/
inductive OrmError where
  | validation
deriving DecidableEq

deriving instance DecidableEq for Except

/-- ORM `getAllBooks`: `Book.findAll` with order createdAt DESC. -/
def getAllBooksOrm (s : Store) : List Book :=
  List.insertionSort createdDesc s.rows

/-- ORM `createBook`: `Book.create` with `title.trim()`, `author.trim()`,
status UNREAD and rating 0 (which always passes the rating validator). -/
def createBookOrm (s : Store) (title author : String) (now : Nat) : Book × Store :=
  let b : Book :=
    { id := s.nextId, title := strTrim title, author := strTrim author,
      status := .UNREAD, createdAt := now, rating := 0 }
  (b, { rows := s.rows ++ [b], nextId := s.nextId + 1 })

/-- Effect of the ORM's single-field status UPDATE on one row: the WHERE
clause compares against the found instance's primary key. -/
def pkSetStatus (pk : Nat) (ns : BookStatus) (c : Book) : Book :=
  if c.id = pk then { c with status := ns } else c

/-- Effect of the ORM's single-field rating UPDATE on one row. -/
def pkSetRating (pk : Nat) (rq : JsNum) (c : Book) : Book :=
  if c.id = pk then { c with rating := rq } else c

/-- ORM `toggleBookStatus`: `findByPk`, return null when absent, else flip
the found instance's status and `update` it (UPDATE ... SET status WHERE
id = pk). -/
def toggleBookStatusOrm (s : Store) (idq : JsNum) : Option Book × Store :=
  match s.rows.find? (idMatches idq) with
  | none => (none, s)
  | some b =>
    let ns := statusFlip b.status
    (some { b with status := ns },
     { s with rows := s.rows.map (pkSetStatus b.id ns) })

/-- ORM `deleteBook`: `findByPk`, false when absent, else `destroy`
(DELETE WHERE id = pk) and true. -/
def deleteBookOrm (s : Store) (idq : JsNum) : Bool × Store :=
  match s.rows.find? (idMatches idq) with
  | none => (false, s)
  | some b =>
    (true, { s with rows := s.rows.filter fun c => ! decide (c.id = b.id) })

/-- ORM `updateBookRating`: `findByPk`, null when absent; the `update` runs
the model validator on the new rating (min 0, max 5) and rejects outside
those bounds, otherwise writes it (UPDATE ... SET rating WHERE id = pk). -/
def updateBookRatingOrm (s : Store) (idq : JsNum) (rating : JsNum) :
    Except OrmError (Option Book) × Store :=
  match s.rows.find? (idMatches idq) with
  | none => (.ok none, s)
  | some b =>
    if jnLt rating 0 || jnLt 5 rating then (.error .validation, s)
    else
      (.ok (some { b with rating := rating }),
       { s with rows := s.rows.map (pkSetRating b.id rating) })

/-! ## JavaScript value semantics used by the Express handlers -/

/-- A JSON/JavaScript value as it can appear in a parsed request body. -/
inductive JVal where
  | vStr (s : String)
  | vNum (q : JsNum)
  | vNull
  | vUndefined
deriving DecidableEq

/-- JavaScript falsiness, as tested by `!title`: undefined, null, the empty
string and 0 are falsy; every other modelled value is truthy. -/
def jsFalsy : JVal → Bool
  | .vStr s => decide (s = "")
  | .vNum q => jnEq q 0
  | .vNull => true
  | .vUndefined => true

/-- `String(v)` for the modelled values (for numbers, only the integral
values the claims exercise need a faithful rendering). -/
def jsString : JVal → String
  | .vStr s => s
  | .vNum q => toString q.num
  | .vNull => "null"
  | .vUndefined => "undefined"

/-- Consume a maximal run of decimal digits, returning their values. -/
def takeDigits : List Char → List Nat × List Char
  | [] => ([], [])
  | c :: cs =>
    if c.isDigit then
      let (ds, rest) := takeDigits cs
      ((c.toNat - 48) :: ds, rest)
    else
      ([], c :: cs)

/-- Value of a digit run read most-significant first. -/
def digitsVal (ds : List Nat) : Nat := ds.foldl (fun a d => a * 10 + d) 0

/-- Optional leading sign; `true` means negative. -/
def parseSign : List Char → Bool × List Char
  | '-' :: r => (true, r)
  | '+' :: r => (false, r)
  | cs => (false, cs)

/-- Integer-plus-fraction value of a decimal literal. -/
def decimalValue (ids fds : List Nat) : JsNum :=
  ⟨(digitsVal ids : Int) * (10 ^ fds.length : Nat) + (digitsVal fds : Int),
   10 ^ fds.length⟩

/-- Exponent tail of a decimal literal, after the `e`/`E`. -/
def parseExpTail (q : JsNum) (cs : List Char) : Option JsNum :=
  let (eneg, cs1) := parseSign cs
  let (eds, cs2) := takeDigits cs1
  if eds.isEmpty || ! cs2.isEmpty then none
  else
    let e := digitsVal eds
    some (if eneg then ⟨q.num, q.den * 10 ^ e⟩ else ⟨q.num * (10 ^ e : Nat), q.den⟩)

/-- A complete signed decimal literal; `none` is NaN. -/
def parseDecimal (cs : List Char) : Option JsNum :=
  let (neg, cs1) := parseSign cs
  let (ids, cs2) := takeDigits cs1
  let (fds, cs3) :=
    match cs2 with
    | '.' :: r => takeDigits r
    | _ => ([], cs2)
  if ids.isEmpty && fds.isEmpty then none
  else
    let base := decimalValue ids fds
    let signed := if neg then ⟨-base.num, base.den⟩ else base
    match cs3 with
    | [] => some signed
    | 'e' :: r => parseExpTail signed r
    | 'E' :: r => parseExpTail signed r
    | _ => none

/-- JavaScript `Number(string)`: whitespace-trimmed; empty means 0; else a
decimal literal, anything else NaN (`none`). -/
def strToNumber (s : String) : Option JsNum :=
  let cs := (strTrim s).data
  if cs.isEmpty then some 0 else parseDecimal cs

/-- JavaScript `Number(v)` on a body value: numbers pass through, strings
are converted, null is 0, undefined is NaN. -/
def jsNumber : JVal → Option JsNum
  | .vNum q => some q
  | .vStr s => strToNumber s
  | .vNull => some 0
  | .vUndefined => none

/-- Property lookup in a parsed JSON body; a missing key reads as
undefined. -/
def bodyGet (body : List (String × JVal)) (k : String) : JVal :=
  match body.find? (fun p => p.1 = k) with
  | some p => p.2
  | none => .vUndefined

/-! ## Express route handlers (server file) -/

/-- Body of an HTTP response. -/
inductive RespBody where
  | books (l : List Book)
  | book (b : Book)
  | msg (m : String)
  | empty
deriving DecidableEq

/-- An HTTP response: status code and JSON body. -/
structure Resp where
  status : Nat
  body : RespBody
deriving DecidableEq

/-- GET /api/books. -/
def getBooksHandler (s : Store) : Resp × Store :=
  (⟨200, .books (getAllBooks s)⟩, s)

/-- POST /api/books: reject when `!title || !author`, else create with
`String(title).trim()` and `String(author).trim()` and respond 201. -/
def postBooksHandler (s : Store) (body : List (String × JVal)) (now : Nat) :
    Resp × Store :=
  let title := bodyGet body "title"
  let author := bodyGet body "author"
  if jsFalsy title || jsFalsy author then
    (⟨400, .msg "Title and author are required"⟩, s)
  else
    let (b, s1) := createBook s (strTrim (jsString title)) (strTrim (jsString author)) now
    (⟨201, .book b⟩, s1)

/-- PATCH /api/books/:id/toggle: 400 when `Number(id)` is NaN, else call
the store; null means 404, otherwise 200 with the updated book. -/
def toggleHandler (s : Store) (idStr : String) : Resp × Store :=
  match strToNumber idStr with
  | none => (⟨400, .msg "Invalid book id"⟩, s)
  | some idq =>
    match toggleBookStatus s idq with
    | (none, s1) => (⟨404, .msg "Book not found"⟩, s1)
    | (some b, s1) => (⟨200, .book b⟩, s1)

/-- PATCH /api/books/:id/rating: 400 when `Number(id)` or
`Number(body.rating)` is NaN; 400 when rating < 1 or rating > 5; else call
the store; null means 404, otherwise 200 with the updated book. -/
def ratingHandler (s : Store) (idStr : String) (ratingVal : JVal) : Resp × Store :=
  match strToNumber idStr, jsNumber ratingVal with
  | none, _ => (⟨400, .msg "Invalid id or rating"⟩, s)
  | some _, none => (⟨400, .msg "Invalid id or rating"⟩, s)
  | some idq, some rq =>
    if jnLt rq 1 || jnLt 5 rq then (⟨400, .msg "Rating must be between 1 and 5"⟩, s)
    else
      match updateBookRating s idq rq with
      | (none, s1) => (⟨404, .msg "Book not found"⟩, s1)
      | (some b, s1) => (⟨200, .book b⟩, s1)

/-- DELETE /api/books/:id: 400 when `Number(id)` is NaN, else call the
store; false means 404, otherwise 204 with no content. -/
def deleteHandler (s : Store) (idStr : String) : Resp × Store :=
  match strToNumber idStr with
  | none => (⟨400, .msg "Invalid book id"⟩, s)
  | some idq =>
    match deleteBook s idq with
    | (false, s1) => (⟨404, .msg "Book not found"⟩, s1)
    | (true, s1) => (⟨204, .empty⟩, s1)

/-! ## Sample states used to instantiate the proved theorems -/

/-- A one-book store (as after creating "Dune"). -/
def sampleStore : Store :=
  { rows := [{ id := 1, title := "Dune", author := "Herbert",
               status := .UNREAD, createdAt := 5, rating := 0 }],
    nextId := 2 }

/-- A two-book store with distinct ids, statuses and timestamps. -/
def sampleStore2 : Store :=
  { rows := [{ id := 1, title := "Dune", author := "Herbert",
               status := .UNREAD, createdAt := 5, rating := 0 },
             { id := 2, title := "Emma", author := "Austen",
               status := .READ, createdAt := 7, rating := ⟨3, 1⟩ }],
    nextId := 3 }

/-- Frame relation of a toggle: every field but status is unchanged, a
non-matching row keeps its status, and a matching row has exactly its own
status flipped. -/
def FrameStatus (idq : JsNum) (b bNew : Book) : Prop :=
  bNew.id = b.id ∧ bNew.title = b.title ∧ bNew.author = b.author ∧
  bNew.createdAt = b.createdAt ∧ bNew.rating = b.rating ∧
  (idMatches idq b = false → bNew.status = b.status) ∧
  (idMatches idq b = true → bNew.status = statusFlip b.status)

/-- Frame relation of a rating update: every field but rating is
unchanged, a non-matching row keeps its rating, and a matching row's
rating becomes exactly the given value. -/
def FrameRating (idq rq : JsNum) (b bNew : Book) : Prop :=
  bNew.id = b.id ∧ bNew.title = b.title ∧ bNew.author = b.author ∧
  bNew.createdAt = b.createdAt ∧ bNew.status = b.status ∧
  (idMatches idq b = false → bNew.rating = b.rating) ∧
  (idMatches idq b = true → bNew.rating = rq)

/-! ## Helper lemmas -/

theorem statusFlip_statusFlip (st : BookStatus) : statusFlip (statusFlip st) = st := by
  cases st <;> rfl

theorem toggleRow_id (idq : JsNum) (b : Book) : (toggleRow idq b).id = b.id := by
  unfold toggleRow; split <;> rfl

theorem setRatingRow_id (idq rq : JsNum) (b : Book) : (setRatingRow idq rq b).id = b.id := by
  unfold setRatingRow; split <;> rfl

theorem idMatches_congr (idq : JsNum) {b c : Book} (h : b.id = c.id) :
    idMatches idq b = idMatches idq c := by
  unfold idMatches jnEq JsNum.ofNat
  rw [h]

theorem idMatches_comp {f : Book → Book} (hf : ∀ b, (f b).id = b.id) (idq : JsNum) :
    idMatches idq ∘ f = idMatches idq :=
  funext fun b => idMatches_congr idq (hf b)

theorem toggleRow_toggleRow (idq : JsNum) (b : Book) :
    toggleRow idq (toggleRow idq b) = b := by
  by_cases h : idMatches idq b = true
  · have h2 : idMatches idq ({ b with status := statusFlip b.status } : Book) = true := by
      rw [idMatches_congr idq
        (show ({ b with status := statusFlip b.status } : Book).id = b.id from rfl)]
      exact h
    simp [toggleRow, h, h2, statusFlip_statusFlip]
  · simp [toggleRow, h]

theorem map_toggleRow_twice (idq : JsNum) (l : List Book) :
    (l.map (toggleRow idq)).map (toggleRow idq) = l := by
  rw [List.map_map]
  have h : toggleRow idq ∘ toggleRow idq = id := funext fun b => toggleRow_toggleRow idq b
  rw [h, List.map_id]

theorem any_map_id_preserving {f : Book → Book} (hf : ∀ b, (f b).id = b.id)
    (idq : JsNum) (l : List Book) :
    (l.map f).any (idMatches idq) = l.any (idMatches idq) := by
  rw [List.any_map, idMatches_comp hf]

theorem find?_map_id_preserving {f : Book → Book} (hf : ∀ b, (f b).id = b.id)
    (idq : JsNum) (l : List Book) :
    (l.map f).find? (idMatches idq) = Option.map f (l.find? (idMatches idq)) := by
  rw [List.find?_map, idMatches_comp hf]

/-! ## Claim theorems -/

/-- C6: for every store state and queried id, applying the raw store's
toggleStatus twice restores the state, the second toggle returns the row
with its original status, and the status flip is involutive on the
two-element status set. -/
theorem toggle_twice_involution (s : Store) (idq : JsNum) :
    (toggleBookStatus (toggleBookStatus s idq).2 idq).2 = s ∧
    (toggleBookStatus (toggleBookStatus s idq).2 idq).1 = s.rows.find? (idMatches idq) ∧
    ∀ st : BookStatus, statusFlip (statusFlip st) = st := by
  obtain ⟨rows, nid⟩ := s
  cases h : rows.any (idMatches idq) with
  | true =>
    have h2 : (rows.map (toggleRow idq)).any (idMatches idq) = true := by
      rw [any_map_id_preserving (toggleRow_id idq)]; exact h
    have hcomp : toggleRow idq ∘ toggleRow idq = id :=
      funext fun b => toggleRow_toggleRow idq b
    refine ⟨?_, ?_, statusFlip_statusFlip⟩ <;>
      simp [toggleBookStatus, h, h2, hcomp]
  | false =>
    have hn : rows.find? (idMatches idq) = none := by
      rw [List.find?_eq_none]
      intro x hx hpx
      have ht : rows.any (idMatches idq) = true := List.any_eq_true.mpr ⟨x, hx, hpx⟩
      rw [h] at ht
      cases ht
    refine ⟨?_, ?_, statusFlip_statusFlip⟩ <;>
      simp [toggleBookStatus, h, hn]

/-- C7: the raw store's delete returns true exactly when a matching row
existed, its resulting state holds exactly the non-matching rows, and a
second delete of the same id returns false and leaves the state of the
first delete unchanged. -/
theorem delete_contract (s : Store) (idq : JsNum) :
    ((deleteBook s idq).1 = true ↔ ∃ b ∈ s.rows, idMatches idq b = true) ∧
    (∀ b : Book, b ∈ (deleteBook s idq).2.rows ↔ b ∈ s.rows ∧ idMatches idq b = false) ∧
    (deleteBook (deleteBook s idq).2 idq).1 = false ∧
    (deleteBook (deleteBook s idq).2 idq).2 = (deleteBook s idq).2 := by
  obtain ⟨rows, nid⟩ := s
  have hz : (rows.filter fun b => ! idMatches idq b).countP (idMatches idq) = 0 :=
    List.countP_eq_zero.mpr fun a ha => by
      have h2 := (List.mem_filter.mp ha).2
      simp only [Bool.not_eq_true'] at h2
      simp [h2]
  refine ⟨?_, ?_, ?_, ?_⟩
  · simp [deleteBook, List.countP_pos_iff]
  · intro b
    simp [deleteBook, List.mem_filter]
  · simp [deleteBook, hz]
  · simp only [deleteBook, List.filter_filter, Bool.and_self]

/-- C8: for every store state — in particular every reachable one — the
raw store's listAll returns exactly the stored rows, ordered by createdAt
descending (newest first), whatever the insertion order was. -/
theorem listAll_sorted_desc (s : Store) :
    (getAllBooks s).Perm s.rows ∧ (getAllBooks s).Sorted createdDesc :=
  ⟨List.perm_insertionSort createdDesc s.rows,
   List.sorted_insertionSort createdDesc s.rows⟩

/-- C10: the store imposes no uniqueness constraint on title or author:
two successive creates with identical inputs both succeed and persist two
distinct rows with distinct ids, and listAll afterwards contains both. -/
theorem duplicate_create_allowed (s : Store) (t a : String) (n1 n2 : Nat) :
    (createBook s t a n1).1.id ≠ (createBook (createBook s t a n1).2 t a n2).1.id ∧
    (createBook s t a n1).1 ≠ (createBook (createBook s t a n1).2 t a n2).1 ∧
    (createBook s t a n1).1 ∈ (createBook (createBook s t a n1).2 t a n2).2.rows ∧
    (createBook (createBook s t a n1).2 t a n2).1 ∈
      (createBook (createBook s t a n1).2 t a n2).2.rows ∧
    (createBook s t a n1).1 ∈ getAllBooks (createBook (createBook s t a n1).2 t a n2).2 ∧
    (createBook (createBook s t a n1).2 t a n2).1 ∈
      getAllBooks (createBook (createBook s t a n1).2 t a n2).2 := by
  obtain ⟨rows, nid⟩ := s
  have hid : nid ≠ nid + 1 := Nat.ne_of_lt (Nat.lt_succ_self nid)
  have hmem1 : (createBook ⟨rows, nid⟩ t a n1).1 ∈
      (createBook (createBook ⟨rows, nid⟩ t a n1).2 t a n2).2.rows := by
    simp [createBook]
  have hmem2 : (createBook (createBook ⟨rows, nid⟩ t a n1).2 t a n2).1 ∈
      (createBook (createBook ⟨rows, nid⟩ t a n1).2 t a n2).2.rows := by
    simp [createBook]
  have hperm := List.perm_insertionSort createdDesc
    (createBook (createBook ⟨rows, nid⟩ t a n1).2 t a n2).2.rows
  refine ⟨hid, ?_, hmem1, hmem2, ?_, ?_⟩
  · intro h
    exact hid (congrArg Book.id h)
  · exact (hperm.mem_iff).mpr hmem1
  · exact (hperm.mem_iff).mpr hmem2

/-- C5: on a well-formed store, creating a book with valid (non-blank
after trim) title and author and then listing yields exactly the prior
list plus one new entry, which has status UNREAD, rating 0, and an id
distinct from every pre-existing id. -/
theorem create_then_list (s : Store) (t a : String) (now : Nat)
    (hwf : s.WF) (_ht : strTrim t ≠ "") (_ha : strTrim a ≠ "") :
    (getAllBooks (createBook s t a now).2).Perm
      ((createBook s t a now).1 :: getAllBooks s) ∧
    (createBook s t a now).1.status = .UNREAD ∧
    (createBook s t a now).1.rating = 0 ∧
    ∀ c ∈ s.rows, c.id ≠ (createBook s t a now).1.id := by
  obtain ⟨rows, nid⟩ := s
  obtain ⟨hnodup, hlt⟩ := hwf
  refine ⟨?_, rfl, rfl, ?_⟩
  · have p1 := List.perm_insertionSort createdDesc
      (rows ++ [(createBook ⟨rows, nid⟩ t a now).1])
    have p2 : (rows ++ [(createBook ⟨rows, nid⟩ t a now).1]).Perm
        ((createBook ⟨rows, nid⟩ t a now).1 :: rows) :=
      List.perm_append_singleton _ _
    have p3 := ((List.perm_insertionSort createdDesc rows).symm).cons
      (createBook ⟨rows, nid⟩ t a now).1
    exact (p1.trans p2).trans p3
  · intro c hc h
    have h2 := hlt c hc
    rw [h] at h2
    simp [createBook] at h2

/-- C5 witness: the theorem instantiated at the empty store and
("Dune", "Herbert"). -/
theorem create_then_list_witness :
    Store.empty.WF ∧ strTrim "Dune" ≠ "" ∧ strTrim "Herbert" ≠ "" ∧
    ((getAllBooks (createBook Store.empty "Dune" "Herbert" 3).2).Perm
      ((createBook Store.empty "Dune" "Herbert" 3).1 :: getAllBooks Store.empty) ∧
    (createBook Store.empty "Dune" "Herbert" 3).1.status = .UNREAD ∧
    (createBook Store.empty "Dune" "Herbert" 3).1.rating = 0 ∧
    ∀ c ∈ Store.empty.rows, c.id ≠ (createBook Store.empty "Dune" "Herbert" 3).1.id) :=
  ⟨by decide, by decide, by decide,
   create_then_list Store.empty "Dune" "Herbert" 3 (by decide) (by decide) (by decide)⟩

/-- C2 (amended): a POST body whose title or author is missing or
JavaScript-falsy (undefined, null, empty string, 0) is answered 400 with
the validation message and the store state is untouched (create is not
invoked). -/
theorem post_missing_falsy_400 (s : Store) (body : List (String × JVal)) (now : Nat)
    (h : (jsFalsy (bodyGet body "title") || jsFalsy (bodyGet body "author")) = true) :
    postBooksHandler s body now = (⟨400, .msg "Title and author are required"⟩, s) := by
  simp [postBooksHandler, h]

/-- C2 witness: a body with no title field is rejected with 400 and the
empty store is unchanged. -/
theorem post_missing_falsy_400_witness :
    (jsFalsy (bodyGet [("author", JVal.vStr "x")] "title") ||
      jsFalsy (bodyGet [("author", JVal.vStr "x")] "author")) = true ∧
    postBooksHandler Store.empty [("author", JVal.vStr "x")] 0 =
      (⟨400, .msg "Title and author are required"⟩, Store.empty) :=
  ⟨by decide, post_missing_falsy_400 Store.empty [("author", JVal.vStr "x")] 0 (by decide)⟩

/-- C2 counterexample: a whitespace-only title is blank after trimming but
truthy, so the claimed 400 does not happen: the handler responds 201 and
the store's create is invoked, persisting a row whose title is the empty
string. -/
theorem post_blank_title_cex :
    (postBooksHandler Store.empty
      [("title", JVal.vStr "   "), ("author", JVal.vStr "x")] 0).1.status = 201 ∧
    (postBooksHandler Store.empty
      [("title", JVal.vStr "   "), ("author", JVal.vStr "x")] 0).2.rows.length = 1 ∧
    (postBooksHandler Store.empty
      [("title", JVal.vStr "   "), ("author", JVal.vStr "x")] 0).2.rows.map Book.title
      = [""] := by
  decide

/-- C3 (amended): an id whose JavaScript Number() conversion is NaN is
answered 400 before the store is invoked, on the toggle, delete and rating
routes alike; on the rating route a NaN rating is answered 400, and a
numeric rating below 1 or above 5 is answered 400, all before the store is
invoked. (Ids and ratings that convert to non-integral numbers pass these
checks; see the counterexample.) -/
theorem id_rating_nan_400 :
    (∀ (s : Store) (idStr : String), strToNumber idStr = none →
      toggleHandler s idStr = (⟨400, .msg "Invalid book id"⟩, s)) ∧
    (∀ (s : Store) (idStr : String), strToNumber idStr = none →
      deleteHandler s idStr = (⟨400, .msg "Invalid book id"⟩, s)) ∧
    (∀ (s : Store) (idStr : String) (rv : JVal),
      strToNumber idStr = none ∨ jsNumber rv = none →
      ratingHandler s idStr rv = (⟨400, .msg "Invalid id or rating"⟩, s)) ∧
    (∀ (s : Store) (idStr : String) (rv : JVal) (idq rq : JsNum),
      strToNumber idStr = some idq → jsNumber rv = some rq →
      (jnLt rq 1 || jnLt 5 rq) = true →
      ratingHandler s idStr rv = (⟨400, .msg "Rating must be between 1 and 5"⟩, s)) := by
  refine ⟨?_, ?_, ?_, ?_⟩
  · intro s idStr h
    simp [toggleHandler, h]
  · intro s idStr h
    simp [deleteHandler, h]
  · intro s idStr rv h
    rcases h with h | h
    · simp [ratingHandler, h]
    · cases hid : strToNumber idStr <;> simp [ratingHandler, hid, h]
  · intro s idStr rv idq rq h1 h2 h3
    simp [ratingHandler, h1, h2, h3]

/-- C3 witness: the four rejection branches instantiated at concrete
requests. -/
theorem id_rating_nan_400_witness :
    strToNumber "abc" = none ∧
    toggleHandler sampleStore "abc" = (⟨400, .msg "Invalid book id"⟩, sampleStore) ∧
    deleteHandler sampleStore "abc" = (⟨400, .msg "Invalid book id"⟩, sampleStore) ∧
    ratingHandler sampleStore "abc" (JVal.vNum 3) =
      (⟨400, .msg "Invalid id or rating"⟩, sampleStore) ∧
    (jnLt (JsNum.ofNat 7) 1 || jnLt 5 (JsNum.ofNat 7)) = true ∧
    ratingHandler sampleStore "1" (JVal.vNum (JsNum.ofNat 7)) =
      (⟨400, .msg "Rating must be between 1 and 5"⟩, sampleStore) :=
  ⟨by decide,
   id_rating_nan_400.1 sampleStore "abc" (by decide),
   id_rating_nan_400.2.1 sampleStore "abc" (by decide),
   id_rating_nan_400.2.2.1 sampleStore "abc" (JVal.vNum 3) (Or.inl (by decide)),
   by decide,
   id_rating_nan_400.2.2.2 sampleStore "1" (JVal.vNum (JsNum.ofNat 7))
     (JsNum.ofNat 1) (JsNum.ofNat 7) (by decide) (by decide) (by decide)⟩

/-- C3 counterexample: the id "1.5" does not parse as an integer, yet the
response is 404 (the store was consulted), not the claimed 400; and the
rating 2.5 does not parse as an integer in [1,5], yet the response is 200
and the store stored 2.5 verbatim. -/
theorem nonint_id_rating_cex :
    (toggleHandler sampleStore "1.5").1.status = 404 ∧
    (ratingHandler sampleStore "1" (JVal.vNum ⟨25, 10⟩)).1.status = 200 ∧
    (ratingHandler sampleStore "1" (JVal.vNum ⟨25, 10⟩)).2.rows.map Book.rating
      = [⟨25, 10⟩] := by
  decide

/-- C4: for an existing id and an integer rating r in 1..5, the raw
store's updateRating succeeds, returns the row with rating r, and a
subsequent read of that row finds rating r; and for any integer rating
outside 1..5 the API layer answers 400 and leaves the store untouched
(updateRating is not invoked). -/
theorem rating_update_read_back (s : Store) (idn : Nat) (r : Int)
    (hmem : s.rows.any (idMatches (JsNum.ofNat idn)) = true)
    (_h1 : 1 ≤ r) (_h5 : r ≤ 5) :
    (∃ b, (updateBookRating s (JsNum.ofNat idn) ⟨r, 1⟩).1 = some b ∧
      b.rating = ⟨r, 1⟩) ∧
    (∀ b', (updateBookRating s (JsNum.ofNat idn) ⟨r, 1⟩).2.rows.find?
        (idMatches (JsNum.ofNat idn)) = some b' → b'.rating = ⟨r, 1⟩) ∧
    (∀ (s' : Store) (idStr : String) (r' : Int), r' < 1 ∨ 5 < r' →
      (ratingHandler s' idStr (JVal.vNum ⟨r', 1⟩)).1.status = 400 ∧
      (ratingHandler s' idStr (JVal.vNum ⟨r', 1⟩)).2 = s') := by
  obtain ⟨rows, nid⟩ := s
  obtain ⟨b0, hb0, hpb0⟩ := List.any_eq_true.mp hmem
  have hfind : ∃ c, rows.find? (idMatches (JsNum.ofNat idn)) = some c := by
    cases hf : rows.find? (idMatches (JsNum.ofNat idn)) with
    | none => exact absurd hpb0 (List.find?_eq_none.mp hf b0 hb0)
    | some c => exact ⟨c, rfl⟩
  obtain ⟨c, hc⟩ := hfind
  have hpc : idMatches (JsNum.ofNat idn) c = true := List.find?_some hc
  refine ⟨?_, ?_, ?_⟩
  · refine ⟨setRatingRow (JsNum.ofNat idn) ⟨r, 1⟩ c, ?_, ?_⟩
    · simp only [updateBookRating, hmem, if_pos]
      rw [find?_map_id_preserving (setRatingRow_id (JsNum.ofNat idn) ⟨r, 1⟩), hc]
      rfl
    · simp [setRatingRow, hpc]
  · intro b' hb'
    simp only [updateBookRating, hmem, if_pos] at hb'
    rw [find?_map_id_preserving (setRatingRow_id (JsNum.ofNat idn) ⟨r, 1⟩), hc] at hb'
    have : setRatingRow (JsNum.ofNat idn) ⟨r, 1⟩ c = b' := by
      simpa using hb'
    rw [← this]
    simp [setRatingRow, hpc]
  · intro s' idStr r' hr
    have e1 : (1 : JsNum) = ⟨1, 1⟩ := rfl
    have e5 : (5 : JsNum) = ⟨5, 1⟩ := rfl
    have hcond : jnLt ⟨r', 1⟩ 1 = true ∨ jnLt 5 ⟨r', 1⟩ = true := by
      rcases hr with h | h
      · left
        rw [e1]
        simp only [jnLt, decide_eq_true_iff]
        omega
      · right
        rw [e5]
        simp only [jnLt, decide_eq_true_iff]
        omega
    cases hid : strToNumber idStr with
    | none => exact ⟨by simp [ratingHandler, hid], by simp [ratingHandler, hid]⟩
    | some idq =>
      exact ⟨by simp [ratingHandler, hid, jsNumber, hcond],
             by simp [ratingHandler, hid, jsNumber, hcond]⟩

/-- C4 witness: the theorem instantiated at the one-book store, id 1,
rating 4, and the rejection branch at rating 7. -/
theorem rating_update_read_back_witness :
    sampleStore.rows.any (idMatches (JsNum.ofNat 1)) = true ∧
    (1 : Int) ≤ 4 ∧ (4 : Int) ≤ 5 ∧
    ((∃ b, (updateBookRating sampleStore (JsNum.ofNat 1) ⟨4, 1⟩).1 = some b ∧
      b.rating = ⟨4, 1⟩) ∧
    (∀ b', (updateBookRating sampleStore (JsNum.ofNat 1) ⟨4, 1⟩).2.rows.find?
        (idMatches (JsNum.ofNat 1)) = some b' → b'.rating = ⟨4, 1⟩) ∧
    (∀ (s' : Store) (idStr : String) (r' : Int), r' < 1 ∨ 5 < r' →
      (ratingHandler s' idStr (JVal.vNum ⟨r', 1⟩)).1.status = 400 ∧
      (ratingHandler s' idStr (JVal.vNum ⟨r', 1⟩)).2 = s')) :=
  ⟨by decide, by decide, by decide,
   rating_update_read_back sampleStore 1 4 (by decide) (by decide) (by decide)⟩

/-- With a positive denominator, two rows matched by the same queried id
carry the same id (the WHERE clause determines the id column value). -/
theorem idMatches_id_eq {idq : JsNum} (hden : 0 < idq.den) {b c : Book}
    (hb : idMatches idq b = true) (hc : idMatches idq c = true) : b.id = c.id := by
  unfold idMatches jnEq JsNum.ofNat at hb hc
  rw [decide_eq_true_iff] at hb hc
  have hdz : ((idq.den : Int)) ≠ 0 := Int.natCast_ne_zero.mpr (by omega)
  have h := mul_right_cancel₀ hdz (hb.trans hc.symm)
  dsimp only at h
  exact_mod_cast h

theorem idMatches_of_id_eq {idq : JsNum} {b c : Book}
    (h : c.id = b.id) (hb : idMatches idq b = true) : idMatches idq c = true := by
  rw [idMatches_congr idq h]; exact hb

theorem forall₂_self {R : Book → Book → Prop} (l : List Book)
    (h : ∀ b ∈ l, R b b) : List.Forall₂ R l l :=
  List.forall₂_same.mpr h

theorem forall₂_map_self {R : Book → Book → Prop} {f : Book → Book} (l : List Book)
    (h : ∀ b ∈ l, R b (f b)) : List.Forall₂ R l (l.map f) := by
  rw [List.forall₂_map_right_iff]
  exact List.forall₂_same.mpr h

/-- C9: on a store obeying the PRIMARY KEY constraint and for a genuine
(positive-denominator) queried id, both layers' toggle changes only the
matching book's status and both layers' rating update changes only the
matching book's rating: all other fields and all other rows are unchanged,
row by row (for the ORM rating update, under its validator's bounds). -/
theorem update_frame (s : Store) (idq rq : JsNum)
    (hnodup : (s.rows.map Book.id).Nodup) (hden : 0 < idq.den) :
    List.Forall₂ (FrameStatus idq) s.rows (toggleBookStatus s idq).2.rows ∧
    List.Forall₂ (FrameRating idq rq) s.rows (updateBookRating s idq rq).2.rows ∧
    List.Forall₂ (FrameStatus idq) s.rows (toggleBookStatusOrm s idq).2.rows ∧
    ((jnLt rq 0 || jnLt 5 rq) = false →
      List.Forall₂ (FrameRating idq rq) s.rows (updateBookRatingOrm s idq rq).2.rows) := by
  obtain ⟨rows, nid⟩ := s
  simp only at hnodup ⊢
  refine ⟨?_, ?_, ?_, ?_⟩
  · cases h : rows.any (idMatches idq) with
    | true =>
      have hst : (toggleBookStatus ⟨rows, nid⟩ idq).2.rows = rows.map (toggleRow idq) := by
        simp [toggleBookStatus, h]
      rw [hst]
      refine forall₂_map_self rows fun b _ => ?_
      cases hm : idMatches idq b <;> simp [FrameStatus, toggleRow, hm]
    | false =>
      have hst : (toggleBookStatus ⟨rows, nid⟩ idq).2.rows = rows := by
        simp [toggleBookStatus, h]
      rw [hst]
      refine forall₂_self rows fun b hb => ?_
      have hm : idMatches idq b = false := by
        have := List.any_eq_false.mp h b hb
        simpa using this
      simp [FrameStatus, hm]
  · cases h : rows.any (idMatches idq) with
    | true =>
      have hst : (updateBookRating ⟨rows, nid⟩ idq rq).2.rows
          = rows.map (setRatingRow idq rq) := by
        simp [updateBookRating, h]
      rw [hst]
      refine forall₂_map_self rows fun b _ => ?_
      cases hm : idMatches idq b <;> simp [FrameRating, setRatingRow, hm]
    | false =>
      have hst : (updateBookRating ⟨rows, nid⟩ idq rq).2.rows = rows := by
        simp [updateBookRating, h]
      rw [hst]
      refine forall₂_self rows fun b hb => ?_
      have hm : idMatches idq b = false := by
        have := List.any_eq_false.mp h b hb
        simpa using this
      simp [FrameRating, hm]
  · cases hf : rows.find? (idMatches idq) with
    | none =>
      have hst : (toggleBookStatusOrm ⟨rows, nid⟩ idq).2.rows = rows := by
        simp [toggleBookStatusOrm, hf]
      rw [hst]
      refine forall₂_self rows fun b hb => ?_
      have hm : idMatches idq b = false := by
        have := List.find?_eq_none.mp hf b hb
        simpa using this
      simp [FrameStatus, hm]
    | some b =>
      have hb : b ∈ rows := List.mem_of_find?_eq_some hf
      have hpb : idMatches idq b = true := List.find?_some hf
      have hst : (toggleBookStatusOrm ⟨rows, nid⟩ idq).2.rows
          = rows.map (pkSetStatus b.id (statusFlip b.status)) := by
        simp [toggleBookStatusOrm, hf]
      rw [hst]
      refine forall₂_map_self rows fun c hc => ?_
      by_cases hid : c.id = b.id
      · have hcb : c = b := List.inj_on_of_nodup_map hnodup hc hb hid
        subst hcb
        simp [FrameStatus, pkSetStatus, hpb]
      · have hm : idMatches idq c = false := by
          cases hmc : idMatches idq c with
          | false => rfl
          | true => exact absurd (idMatches_id_eq hden hmc hpb) hid
        simp [FrameStatus, pkSetStatus, hid, hm]
  · intro hval
    have hv : (jnLt rq 0 || jnLt 5 rq) = false := hval
    cases hf : rows.find? (idMatches idq) with
    | none =>
      have hst : (updateBookRatingOrm ⟨rows, nid⟩ idq rq).2.rows = rows := by
        simp [updateBookRatingOrm, hf]
      rw [hst]
      refine forall₂_self rows fun b hb => ?_
      have hm : idMatches idq b = false := by
        have := List.find?_eq_none.mp hf b hb
        simpa using this
      simp [FrameRating, hm]
    | some b =>
      have hb : b ∈ rows := List.mem_of_find?_eq_some hf
      have hpb : idMatches idq b = true := List.find?_some hf
      have hst : (updateBookRatingOrm ⟨rows, nid⟩ idq rq).2.rows
          = rows.map (pkSetRating b.id rq) := by
        simp only [updateBookRatingOrm, hf]
        rw [Bool.or_eq_false_iff] at hv
        simp [hv.1, hv.2]
      rw [hst]
      refine forall₂_map_self rows fun c hc => ?_
      by_cases hid : c.id = b.id
      · simp [FrameRating, pkSetRating, hid, idMatches_of_id_eq hid hpb]
      · have hm : idMatches idq c = false := by
          cases hmc : idMatches idq c with
          | false => rfl
          | true => exact absurd (idMatches_id_eq hden hmc hpb) hid
        simp [FrameRating, pkSetRating, hid, hm]

/-- C9 witness: the frame theorem instantiated on the two-book store with
queried id 1 and rating 4. -/
theorem update_frame_witness :
    (sampleStore2.rows.map Book.id).Nodup ∧ 0 < (JsNum.ofNat 1).den ∧
    (List.Forall₂ (FrameStatus (JsNum.ofNat 1)) sampleStore2.rows
       (toggleBookStatus sampleStore2 (JsNum.ofNat 1)).2.rows ∧
     List.Forall₂ (FrameRating (JsNum.ofNat 1) ⟨4, 1⟩) sampleStore2.rows
       (updateBookRating sampleStore2 (JsNum.ofNat 1) ⟨4, 1⟩).2.rows ∧
     List.Forall₂ (FrameStatus (JsNum.ofNat 1)) sampleStore2.rows
       (toggleBookStatusOrm sampleStore2 (JsNum.ofNat 1)).2.rows ∧
     ((jnLt ⟨4, 1⟩ 0 || jnLt 5 ⟨4, 1⟩) = false →
       List.Forall₂ (FrameRating (JsNum.ofNat 1) ⟨4, 1⟩) sampleStore2.rows
         (updateBookRatingOrm sampleStore2 (JsNum.ofNat 1) ⟨4, 1⟩).2.rows)) :=
  ⟨by decide, by decide,
   update_frame sampleStore2 (JsNum.ofNat 1) ⟨4, 1⟩ (by decide) (by decide)⟩

/-- C1 (amended): on a store obeying the PRIMARY KEY constraint, for a
genuine (positive-denominator) queried id, inputs already trimmed, and a
rating within the ORM validator's [0,5] bounds, the raw-driver layer and
the ORM layer return equal results and leave equal states on all five
operations (the ORM's rating result wrapped in its non-throwing case). -/
theorem store_layers_equiv (s : Store) (idq rq : JsNum) (title author : String)
    (now : Nat)
    (hnodup : (s.rows.map Book.id).Nodup) (hden : 0 < idq.den)
    (htitle : strTrim title = title) (hauthor : strTrim author = author)
    (hr0 : jnLt rq 0 = false) (hr5 : jnLt 5 rq = false) :
    getAllBooksOrm s = getAllBooks s ∧
    createBookOrm s title author now = createBook s title author now ∧
    toggleBookStatusOrm s idq = toggleBookStatus s idq ∧
    deleteBookOrm s idq = deleteBook s idq ∧
    updateBookRatingOrm s idq rq =
      (Except.ok (updateBookRating s idq rq).1, (updateBookRating s idq rq).2) := by
  obtain ⟨rows, nid⟩ := s
  simp only at hnodup
  refine ⟨rfl, ?_, ?_, ?_, ?_⟩
  · unfold createBookOrm createBook
    rw [htitle, hauthor]
  · cases hf : rows.find? (idMatches idq) with
    | none =>
      have hall : ∀ x ∈ rows, idMatches idq x = false := fun x hx => by
        have := List.find?_eq_none.mp hf x hx
        simpa using this
      have hany : rows.any (idMatches idq) = false :=
        List.any_eq_false.mpr fun x hx => by simp [hall x hx]
      simp [toggleBookStatusOrm, toggleBookStatus, hf, hany]
    | some b =>
      have hb : b ∈ rows := List.mem_of_find?_eq_some hf
      have hpb : idMatches idq b = true := List.find?_some hf
      have hany : rows.any (idMatches idq) = true :=
        List.any_eq_true.mpr ⟨b, hb, hpb⟩
      have hrows : rows.map (pkSetStatus b.id (statusFlip b.status))
          = rows.map (toggleRow idq) := by
        refine List.map_congr_left fun c hc => ?_
        by_cases hid : c.id = b.id
        · have hcb : c = b := List.inj_on_of_nodup_map hnodup hc hb hid
          subst hcb
          simp [pkSetStatus, toggleRow, hpb]
        · have hm : idMatches idq c = false := by
            cases hmc : idMatches idq c with
            | false => rfl
            | true => exact absurd (idMatches_id_eq hden hmc hpb) hid
          simp [pkSetStatus, toggleRow, hid, hm]
      have hfind : (rows.map (toggleRow idq)).find? (idMatches idq)
          = some { b with status := statusFlip b.status } := by
        rw [find?_map_id_preserving (toggleRow_id idq), hf]
        simp [toggleRow, hpb]
      simp [toggleBookStatusOrm, toggleBookStatus, hf, hany, hrows, hfind]
  · cases hf : rows.find? (idMatches idq) with
    | none =>
      have hall : ∀ x ∈ rows, idMatches idq x = false := fun x hx => by
        have := List.find?_eq_none.mp hf x hx
        simpa using this
      have hcount : rows.countP (idMatches idq) = 0 :=
        List.countP_eq_zero.mpr fun x hx => by simp [hall x hx]
      have hfilter : (rows.filter fun c => ! idMatches idq c) = rows :=
        List.filter_eq_self.mpr fun x hx => by simp [hall x hx]
      simp [deleteBookOrm, deleteBook, hf, hcount, hfilter]
    | some b =>
      have hb : b ∈ rows := List.mem_of_find?_eq_some hf
      have hpb : idMatches idq b = true := List.find?_some hf
      have hpos : 0 < rows.countP (idMatches idq) :=
        List.countP_pos_iff.mpr ⟨b, hb, hpb⟩
      have hfilter : (rows.filter fun c => ! decide (c.id = b.id))
          = rows.filter fun c => ! idMatches idq c := by
        refine List.filter_congr fun c hc => ?_
        by_cases hid : c.id = b.id
        · simp [hid, idMatches_of_id_eq hid hpb]
        · have hm : idMatches idq c = false := by
            cases hmc : idMatches idq c with
            | false => rfl
            | true => exact absurd (idMatches_id_eq hden hmc hpb) hid
          simp [hid, hm]
      simp [deleteBookOrm, deleteBook, hf, hpos, hfilter]
  · cases hf : rows.find? (idMatches idq) with
    | none =>
      have hany : rows.any (idMatches idq) = false :=
        List.any_eq_false.mpr fun x hx => by
          have := List.find?_eq_none.mp hf x hx
          simpa using this
      simp [updateBookRatingOrm, updateBookRating, hf, hany]
    | some b =>
      have hb : b ∈ rows := List.mem_of_find?_eq_some hf
      have hpb : idMatches idq b = true := List.find?_some hf
      have hany : rows.any (idMatches idq) = true :=
        List.any_eq_true.mpr ⟨b, hb, hpb⟩
      have hrows : rows.map (pkSetRating b.id rq) = rows.map (setRatingRow idq rq) := by
        refine List.map_congr_left fun c hc => ?_
        by_cases hid : c.id = b.id
        · simp [pkSetRating, setRatingRow, hid, idMatches_of_id_eq hid hpb]
        · have hm : idMatches idq c = false := by
            cases hmc : idMatches idq c with
            | false => rfl
            | true => exact absurd (idMatches_id_eq hden hmc hpb) hid
          simp [pkSetRating, setRatingRow, hid, hm]
      have hfind : (rows.map (setRatingRow idq rq)).find? (idMatches idq)
          = some { b with rating := rq } := by
        rw [find?_map_id_preserving (setRatingRow_id idq rq), hf]
        simp [setRatingRow, hpb]
      simp [updateBookRatingOrm, updateBookRating, hf, hany, hr0, hr5, hrows, hfind]

/-- C1 witness: the equivalence instantiated on the two-book store with
id 1, rating 4, trimmed inputs. -/
theorem store_layers_equiv_witness :
    (sampleStore2.rows.map Book.id).Nodup ∧ 0 < (JsNum.ofNat 1).den ∧
    strTrim "Ada" = "Ada" ∧ strTrim "Lovelace" = "Lovelace" ∧
    jnLt ⟨4, 1⟩ 0 = false ∧ jnLt 5 ⟨4, 1⟩ = false ∧
    (getAllBooksOrm sampleStore2 = getAllBooks sampleStore2 ∧
     createBookOrm sampleStore2 "Ada" "Lovelace" 9
       = createBook sampleStore2 "Ada" "Lovelace" 9 ∧
     toggleBookStatusOrm sampleStore2 (JsNum.ofNat 1)
       = toggleBookStatus sampleStore2 (JsNum.ofNat 1) ∧
     deleteBookOrm sampleStore2 (JsNum.ofNat 1)
       = deleteBook sampleStore2 (JsNum.ofNat 1) ∧
     updateBookRatingOrm sampleStore2 (JsNum.ofNat 1) ⟨4, 1⟩
       = (Except.ok (updateBookRating sampleStore2 (JsNum.ofNat 1) ⟨4, 1⟩).1,
          (updateBookRating sampleStore2 (JsNum.ofNat 1) ⟨4, 1⟩).2)) :=
  ⟨by decide, by decide, by decide, by decide, by decide, by decide,
   store_layers_equiv sampleStore2 (JsNum.ofNat 1) ⟨4, 1⟩ "Ada" "Lovelace" 9
     (by decide) (by decide) (by decide) (by decide) (by decide) (by decide)⟩

/-- C1 counterexample: the claim fails as stated. On equal (even empty)
states, create with an untrimmed title differs between the layers — the
ORM trims again, the raw driver stores the raw string — and updateRating
with 7 (outside [0,5]) throws in the ORM layer leaving the state
unchanged, while the raw driver stores 7 verbatim and changes the state. -/
theorem store_layers_equiv_cex :
    createBookOrm Store.empty " A " "B" 0 ≠ createBook Store.empty " A " "B" 0 ∧
    (createBookOrm Store.empty " A " "B" 0).1.title = "A" ∧
    (createBook Store.empty " A " "B" 0).1.title = " A " ∧
    (updateBookRatingOrm sampleStore (JsNum.ofNat 1) (JsNum.ofNat 7)).1
      = Except.error OrmError.validation ∧
    (updateBookRatingOrm sampleStore (JsNum.ofNat 1) (JsNum.ofNat 7)).2
      = sampleStore ∧
    (updateBookRating sampleStore (JsNum.ofNat 1) (JsNum.ofNat 7)).1
      = some { id := 1, title := "Dune", author := "Herbert",
               status := .UNREAD, createdAt := 5, rating := JsNum.ofNat 7 } ∧
    (updateBookRating sampleStore (JsNum.ofNat 1) (JsNum.ofNat 7)).2
      ≠ sampleStore := by
  decide

/-- C6 witness: the involution instantiated on the two-book store at
id 1. -/
theorem toggle_twice_involution_witness :
    (toggleBookStatus (toggleBookStatus sampleStore2 (JsNum.ofNat 1)).2
      (JsNum.ofNat 1)).2 = sampleStore2 ∧
    (toggleBookStatus (toggleBookStatus sampleStore2 (JsNum.ofNat 1)).2
      (JsNum.ofNat 1)).1 = sampleStore2.rows.find? (idMatches (JsNum.ofNat 1)) ∧
    ∀ st : BookStatus, statusFlip (statusFlip st) = st :=
  toggle_twice_involution sampleStore2 (JsNum.ofNat 1)

/-- C7 witness: the delete contract instantiated on the two-book store at
id 2. -/
theorem delete_contract_witness :
    ((deleteBook sampleStore2 (JsNum.ofNat 2)).1 = true ↔
      ∃ b ∈ sampleStore2.rows, idMatches (JsNum.ofNat 2) b = true) ∧
    (∀ b : Book, b ∈ (deleteBook sampleStore2 (JsNum.ofNat 2)).2.rows ↔
      b ∈ sampleStore2.rows ∧ idMatches (JsNum.ofNat 2) b = false) ∧
    (deleteBook (deleteBook sampleStore2 (JsNum.ofNat 2)).2 (JsNum.ofNat 2)).1 = false ∧
    (deleteBook (deleteBook sampleStore2 (JsNum.ofNat 2)).2 (JsNum.ofNat 2)).2
      = (deleteBook sampleStore2 (JsNum.ofNat 2)).2 :=
  delete_contract sampleStore2 (JsNum.ofNat 2)

/-- C8 witness: the ordering property instantiated on the two-book store
(whose rows were inserted oldest first). -/
theorem listAll_sorted_desc_witness :
    (getAllBooks sampleStore2).Perm sampleStore2.rows ∧
    (getAllBooks sampleStore2).Sorted createdDesc :=
  listAll_sorted_desc sampleStore2

/-- C10 witness: two identical creates on the empty store. -/
theorem duplicate_create_allowed_witness :
    (createBook Store.empty "Dune" "Herbert" 1).1.id
      ≠ (createBook (createBook Store.empty "Dune" "Herbert" 1).2 "Dune" "Herbert" 2).1.id ∧
    (createBook Store.empty "Dune" "Herbert" 1).1
      ≠ (createBook (createBook Store.empty "Dune" "Herbert" 1).2 "Dune" "Herbert" 2).1 ∧
    (createBook Store.empty "Dune" "Herbert" 1).1
      ∈ (createBook (createBook Store.empty "Dune" "Herbert" 1).2 "Dune" "Herbert" 2).2.rows ∧
    (createBook (createBook Store.empty "Dune" "Herbert" 1).2 "Dune" "Herbert" 2).1
      ∈ (createBook (createBook Store.empty "Dune" "Herbert" 1).2 "Dune" "Herbert" 2).2.rows ∧
    (createBook Store.empty "Dune" "Herbert" 1).1
      ∈ getAllBooks (createBook (createBook Store.empty "Dune" "Herbert" 1).2 "Dune" "Herbert" 2).2 ∧
    (createBook (createBook Store.empty "Dune" "Herbert" 1).2 "Dune" "Herbert" 2).1
      ∈ getAllBooks (createBook (createBook Store.empty "Dune" "Herbert" 1).2 "Dune" "Herbert" 2).2 :=
  duplicate_create_allowed Store.empty "Dune" "Herbert" 1 2
